import Mathlib

/-!
Verification development for the deployment-orchestration core
(`src/packages/indexer-common/src/indexer-management/subgraphs.ts`,
class `SubgraphManager`).

The TypeScript class is embedded as a pure, fuel-indexed interpreter.
The remote JSON-RPC endpoint is an oracle (`Env`): each of the three
remote operations is a function from the number of RPC calls made so
far (the endpoint may answer differently over time) to either a success
(`none`) or a remote error message (`some msg`).  `Math.random()` is an
oracle stream `Env.rand` of numerals below `2 ^ 53`, matching the
double-precision granularity JavaScript draws from `[0, 1)`.
Mutable effects (the indexing-rule store, the RPC/draw counters, a
fresh-object counter modelling JavaScript reference identity, and an
event trace) are threaded through an explicit state `St`.
-/

set_option maxRecDepth 100000

deriving instance DecidableEq for Except

namespace Indexer

/-! ### String scalars used by the source -/

def graftSig : String :=
  "subgraph validation error: [the graft base is invalid: deployment not found"

def qmTok : String := "Qm"

def alreadyExistsTok : String := "already exists"

def unchangedTok : String := "unchanged"

def ie20 : String := "IE020"

def ie26 : String := "IE026"

def ie28 : String := "IE028"

def ie69 : String := "IE069"

/-! ### JavaScript string primitives

`String.prototype.indexOf` returns `-1` when the pattern is absent, and
`String.prototype.substring` clamps both arguments into `[0, length]`
(swapping them when out of order), so the source's
`substring(indexOf(p), indexOf(p) + 46)` never throws. -/

def firstIdxAux (pat : List Char) : List Char → Nat → Option Nat
  | [], i => if pat.isPrefixOf ([] : List Char) then some i else none
  | c :: rest, i =>
      if pat.isPrefixOf (c :: rest) then some i else firstIdxAux pat rest (i + 1)

def firstIndexOf (s pat : String) : Option Nat :=
  firstIdxAux pat.toList s.toList 0

def containsSub (s pat : String) : Bool :=
  (firstIndexOf s pat).isSome

def jsIndexOf (s pat : String) : Int :=
  match firstIndexOf s pat with
  | some i => (i : Int)
  | none => -1

def clampIdx (n : Int) (len : Nat) : Nat :=
  min n.toNat len

def jsSubstring (s : String) (a b : Int) : String :=
  let len := s.toList.length
  let a2 := clampIdx a len
  let b2 := clampIdx b len
  let lo := min a2 b2
  let hi := max a2 b2
  String.mk ((s.toList.drop lo).take (hi - lo))

/-! ### Data model -/

/-- `SubgraphDeploymentID` (from `common-ts`) is used by this file purely as a
carrier of its `ipfsHash` string.  `oid` models the JavaScript object
reference: each `new SubgraphDeploymentID(...)` allocation yields a fresh one.
It is needed because the source calls `Array.prototype.includes` on a list of
such objects, and `includes` compares object references, not hashes. -/
structure SubgraphDeploymentID where
  ipfsHash : String
  oid : Nat
  deriving DecidableEq, Repr

inductive SubgraphIdentifierType where
  | DEPLOYMENT
  | SUBGRAPH
  | GROUP
  deriving DecidableEq, Repr

inductive IndexingDecisionBasis where
  | RULES
  | NEVER
  | ALWAYS
  | OFFCHAIN
  deriving DecidableEq, Repr

structure IndexingRule where
  identifier : String
  identifierType : SubgraphIdentifierType
  decisionBasis : IndexingDecisionBasis
  deriving DecidableEq, Repr

/-- Thrown values: a remote error payload (`response.error`), an
`indexerError(code, cause)` wrapper, or exhaustion of the interpreter fuel
(never produced in any run considered by the theorems below). -/
inductive JsError where
  | remote (msg : String)
  | indexer (code : String) (cause : JsError)
  | fuelOut
  deriving DecidableEq, Repr

/-- Observable actions, in the order the source performs them. -/
inductive Event where
  | ensureCall (name hash : String) (depth : Nat)
  | createCall (name : String)
  | deployCall (name hash : String) (node : Option String) (depth : Nat)
  | reassignCall (node : Option String) (hash : String)
  | upsertRule (identifier : String) (identifierType : SubgraphIdentifierType)
      (decisionBasis : IndexingDecisionBasis)
  deriving DecidableEq, Repr

structure Env where
  pool : List String
  maxDepth : Nat
  createResp : Nat → String → Option String
  deployResp : Nat → String → String → Option String → Option String
  reassignResp : Nat → Option String → String → Option String
  rand : Nat → Nat

structure St where
  rules : List IndexingRule
  rpc : Nat
  draws : Nat
  alloc : Nat
  trace : List Event
  deriving Repr

def emit (st : St) (e : Event) : St :=
  { st with trace := st.trace ++ [e] }

/-! ### Embedded operations -/

/-- Source lines 32-58 (`graftBase`).  The depth argument is compared against
`this.autoGraftResolverDepth` (here `maxDepth`); `alloc` is the fresh object
id handed to the `new SubgraphDeploymentID(graftBaseQm)` allocation. -/
def graftBase (maxDepth : Nat) (msg : String) (depth : Nat) (alloc : Nat) :
    Option SubgraphDeploymentID :=
  if containsSub msg graftSig then
    let graftBaseQm := jsSubstring msg (jsIndexOf msg qmTok) (jsIndexOf msg qmTok + 46)
    if maxDepth ≤ depth then
      -- source: warn `Grafting depth ... reached auto-graft-resolver-depth limit`
      none
    else
      some ⟨graftBaseQm, alloc⟩
  else
    none

/-- Node selection, duplicated verbatim in the source at `deploy` (lines
84-98) and `reassign` (lines 210-224).  With an explicit node the source
only logs a warning when the node is outside `indexNodeIDs`; membership has
no effect on the result.  Otherwise
`indexNodeIDs[Math.floor(Math.random() * indexNodeIDs.length)]` is read,
which is `undefined` (`none`) when the pool is empty. -/
def pickTargetNode (env : Env) (st : St) (indexNode : Option String) :
    Option String × St :=
  match indexNode with
  | some n => (some n, st)
  | none =>
      (env.pool.get? (env.rand st.draws * env.pool.length / 2 ^ 53),
       { st with draws := st.draws + 1 })

/-- Source lines 60-74 (`createSubgraph`).  When the response carries an
error, the catch block logs at debug level if the message contains
`alreadyExistsTok` and then rethrows the error unconditionally (the `throw`
sits after the `if`, not in an `else`). -/
def createSubgraphF (env : Env) (st : St) (name : String) :
    Except JsError Unit × St :=
  let st1 := emit st (.createCall name)
  let resp := env.createResp st.rpc name
  let st2 := { st1 with rpc := st1.rpc + 1 }
  match resp with
  | some msg => (.error (.remote msg), st2)
  | none => (.ok (), st2)

/-- Source lines 205-252 (`reassign`).  An error whose message contains
`unchangedTok` is logged at debug level and rethrown as-is; any other error
is wrapped as `indexerError(IE028, error)`. -/
def reassignF (env : Env) (st : St) (deployment : SubgraphDeploymentID)
    (indexNode : Option String) : Except JsError Unit × St :=
  let p := pickTargetNode env st indexNode
  let targetNode := p.fst
  let st1 := emit p.snd (.reassignCall targetNode deployment.ipfsHash)
  let resp := env.reassignResp p.snd.rpc targetNode deployment.ipfsHash
  let st2 := { st1 with rpc := st1.rpc + 1 }
  match resp with
  | some msg =>
      if containsSub msg unchangedTok then
        (.error (.remote msg), st2)
      else
        (.error (.indexer ie28 (.remote msg)), st2)
  | none => (.ok (), st2)

/-- `(await fetchIndexingRules(models, false))`.  Modelled from the spec:
`fetchIndexingRules` lives at the package root, outside `src/`; section 4.5
describes it as a full scan returning all currently known policy records. -/
def fetchIndexingRules (st : St) : List IndexingRule := st.rules

/-- Modelled from the spec: `upsertIndexingRule` lives at the package root,
outside `src/`; section 6 gives the policy store an `upsert(record)`
operation, which replaces the record bearing the same identifier when one
exists and inserts the record otherwise. -/
def upsertIndexingRule (rules : List IndexingRule) (r : IndexingRule) :
    List IndexingRule :=
  if rules.any (fun x => x.identifier == r.identifier) then
    rules.map (fun x => if x.identifier == r.identifier then r else x)
  else
    rules ++ [r]

/-- `indexingRules.map((rule) => new SubgraphDeploymentID(rule.identifier))`:
every element is a fresh allocation, so the object ids are the successive
values of the allocation counter. -/
def freshIds (rules : List IndexingRule) (alloc : Nat) :
    List SubgraphDeploymentID :=
  rules.enum.map (fun p => ⟨p.snd.identifier, alloc + p.fst⟩)

/-- `Array.prototype.includes` on an array of objects: SameValueZero is
reference equality for objects. -/
def jsIncludes (xs : List SubgraphDeploymentID) (y : SubgraphDeploymentID) :
    Bool :=
  xs.any (fun x => x.oid == y.oid)

/-- State after the `subgraph_deploy` RPC has been issued: the node has been
picked (consuming a draw when no explicit node was given), the call has been
recorded, and the RPC counter advanced. -/
def stAfterDeploy (env : Env) (st : St) (name hash : String)
    (node : Option String) (depth : Nat) : St :=
  let p := pickTargetNode env st node
  let st1 := emit p.snd (.deployCall name hash p.fst depth)
  { st1 with rpc := st1.rpc + 1 }

/-- State after the graft-base extraction has additionally allocated the
`new SubgraphDeploymentID(graftBaseQm)` object. -/
def stAfterGraft (env : Env) (st : St) (name hash : String)
    (node : Option String) (depth : Nat) : St :=
  let s := stAfterDeploy env st name hash node depth
  { s with alloc := s.alloc + 1 }

/-- Source lines 116-130: after a graft base was found, `ensure` the base at
`depth + 1`, then `ensure` the original deployment again at the same depth,
then `throw indexerError(IE069, response.error)`.  All three throws land in
the surrounding catch (lines 150-158), which wraps them as
`indexerError(IE026, ...)`.  `recEnsure` stands for the recursive
`this.ensure(logger, models, name, ·, targetNode, ·)` call. -/
def graftRetryPhaseGen
    (recEnsure : St → SubgraphDeploymentID → Nat → Except JsError Unit × St)
    (st : St) (baseDeployment deployment : SubgraphDeploymentID)
    (depth : Nat) (origMsg : String) : Except JsError Unit × St :=
  let r1 := recEnsure st baseDeployment (depth + 1)
  match r1.fst with
  | .error e => (.error (.indexer ie26 e), r1.snd)
  | .ok _ =>
      let r2 := recEnsure r1.snd deployment depth
      match r2.fst with
      | .error e => (.error (.indexer ie26 e), r2.snd)
      | .ok _ => (.error (.indexer ie26 (.indexer ie69 (.remote origMsg))), r2.snd)

inductive CallTag where
  | ensure
  | deploy
  deriving DecidableEq, Repr

/-- The mutually recursive pair `ensure` (source lines 254-277) and `deploy`
(source lines 76-159), merged into one fuel-indexed function so that the
recursion is structural.

`deploy` branch: pick the target node, issue `subgraph_deploy` (the
120-second `pTimeout` only matters for transport hangs, which the oracle
does not produce).  On a remote error, run `graftBase`; if it yields a base
deployment, run the two-phase retry; otherwise
`throw indexerError(IE026, response.error)`, which the catch wraps once
more.  On success, map the fetched rules to fresh `SubgraphDeploymentID`s,
and if `includes` misses, upsert the default offchain rule.

`ensure` branch: `createSubgraph`, `deploy`, `reassign` in sequence; the
catch builds `indexerError(IE020, error)` for the log but rethrows the
original `error` (line 275 is `throw error`, not `throw err`). -/
def runF : Nat → CallTag → Env → St → String → SubgraphDeploymentID →
    Option String → Nat → Except JsError Unit × St
  | 0, _, _, st, _, _, _, _ => (.error .fuelOut, st)
  | fuel + 1, .deploy, env, st, name, deployment, indexNode, depth =>
      let targetNode := (pickTargetNode env st indexNode).fst
      let st2 := stAfterDeploy env st name deployment.ipfsHash indexNode depth
      match env.deployResp st.rpc name deployment.ipfsHash targetNode with
      | some msg =>
          match graftBase env.maxDepth msg depth st.alloc with
          | some baseDeployment =>
              graftRetryPhaseGen
                (fun s d k => runF fuel .ensure env s name d targetNode k)
                { st2 with alloc := st2.alloc + 1 }
                baseDeployment deployment depth msg
          | none =>
              (.error (.indexer ie26 (.indexer ie26 (.remote msg))), st2)
      | none =>
          let fetched := fetchIndexingRules st2
          let indexingRules := freshIds fetched st2.alloc
          let st3 := { st2 with alloc := st2.alloc + fetched.length }
          if jsIncludes indexingRules deployment then
            (.ok (), st3)
          else
            let st4 := emit st3 (.upsertRule deployment.ipfsHash .DEPLOYMENT .OFFCHAIN)
            (.ok (),
             { st4 with
                rules := upsertIndexingRule st4.rules
                  ⟨deployment.ipfsHash, .DEPLOYMENT, .OFFCHAIN⟩ })
  | fuel + 1, .ensure, env, st, name, deployment, indexNode, depth =>
      let st1 := emit st (.ensureCall name deployment.ipfsHash depth)
      let r1 := createSubgraphF env st1 name
      match r1.fst with
      | .error e => (.error e, r1.snd)
      | .ok _ =>
          let r2 := runF fuel .deploy env r1.snd name deployment indexNode depth
          match r2.fst with
          | .error e => (.error e, r2.snd)
          | .ok _ =>
              let r3 := reassignF env r2.snd deployment indexNode
              match r3.fst with
              | .error e => (.error e, r3.snd)
              | .ok _ => (.ok (), r3.snd)

/-- `SubgraphManager.ensure` (source lines 254-277); `depth` defaults to `0`
at the call sites that omit it. -/
def ensureF (fuel : Nat) (env : Env) (st : St) (name : String)
    (deployment : SubgraphDeploymentID) (indexNode : Option String)
    (depth : Nat) : Except JsError Unit × St :=
  runF fuel .ensure env st name deployment indexNode depth

/-- `SubgraphManager.deploy` (source lines 76-159). -/
def deployF (fuel : Nat) (env : Env) (st : St) (name : String)
    (deployment : SubgraphDeploymentID) (indexNode : Option String)
    (depth : Nat) : Except JsError Unit × St :=
  runF fuel .deploy env st name deployment indexNode depth

/-- The two-phase retry of source lines 116-130, phrased with `ensureF`. -/
def graftRetryPhase (fuel : Nat) (env : Env) (st : St) (name : String)
    (baseDeployment deployment : SubgraphDeploymentID)
    (targetNode : Option String) (depth : Nat) (origMsg : String) :
    Except JsError Unit × St :=
  graftRetryPhaseGen (fun s d k => ensureF fuel env s name d targetNode k)
    st baseDeployment deployment depth origMsg

/-! ### Auxiliary observers -/

/-! ### Concrete scenarios used by counterexamples and witnesses -/

def nodeA : String := "nodeA"

def nodeB : String := "nodeB"

def nsS : String := "test-subgraph"

/-- A 46-character deployment hash: `Qm` followed by 44 letters `h`. -/
def hHash : String := qmTok ++ String.mk (List.replicate 44 (Char.ofNat 104))

/-- A 46-character graft-base hash: `Qm` followed by 44 letters `b`. -/
def bHash : String := qmTok ++ String.mk (List.replicate 44 (Char.ofNat 98))

def boomMsg : String := "deployment rejected by node"

def alreadyMsg : String := "subgraph name already exists"

/-- A graft-base failure message naming `bHash`.  The first occurrence of
`Qm` in it is the start of `bHash`. -/
def msgC1 : String := graftSig ++ ", " ++ bHash ++ "]"

/-- The original deployment, allocated by the caller before any of the
fresh ids the orchestrator creates (its `oid` is below `st0.alloc`). -/
def hDep : SubgraphDeploymentID := ⟨hHash, 7⟩

def st0 : St := { rules := [], rpc := 0, draws := 0, alloc := 8, trace := [] }

/-- The graft-base object the resolver allocates first when started from
`st0` (the allocation counter stands at `8` there). -/
def bDep : SubgraphDeploymentID := ⟨bHash, 8⟩

/-- Endpoint behaviour: the second RPC overall (the first `subgraph_deploy`)
fails with the graft-base message; every other call succeeds. -/
def envC1 : Env :=
  { pool := [nodeA, nodeB]
    maxDepth := 1
    createResp := fun _ _ => none
    deployResp := fun t _ _ _ => if t == 1 then some msgC1 else none
    reassignResp := fun _ _ _ => none
    rand := fun _ => 0 }

/-- Like `envC1`, except that the deploy issued while retrying the original
deployment (the seventh RPC overall) fails with a non-graft message. -/
def envC2x : Env :=
  { pool := [nodeA, nodeB]
    maxDepth := 1
    createResp := fun _ _ => none
    deployResp := fun t _ _ _ =>
      if t == 1 then some msgC1 else if t == 6 then some boomMsg else none
    reassignResp := fun _ _ _ => none
    rand := fun _ => 0 }

/-- Endpoint on which `subgraph_create` always fails with a generic error. -/
def envBoom : Env :=
  { pool := [nodeA, nodeB]
    maxDepth := 0
    createResp := fun _ _ => some boomMsg
    deployResp := fun _ _ _ _ => none
    reassignResp := fun _ _ _ => none
    rand := fun _ => 0 }

/-- Endpoint on which `subgraph_create` reports that the name already
exists; everything else succeeds. -/
def envC4 : Env :=
  { pool := [nodeA, nodeB]
    maxDepth := 0
    createResp := fun _ _ => some alreadyMsg
    deployResp := fun _ _ _ _ => none
    reassignResp := fun _ _ _ => none
    rand := fun _ => 0 }

/-- A fully successful endpoint. -/
def envOk : Env :=
  { pool := [nodeA, nodeB]
    maxDepth := 0
    createResp := fun _ _ => none
    deployResp := fun _ _ _ _ => none
    reassignResp := fun _ _ _ => none
    rand := fun _ => 0 }

/-- A fully successful endpoint with an empty node pool. -/
def envC9 : Env :=
  { pool := []
    maxDepth := 0
    createResp := fun _ _ => none
    deployResp := fun _ _ _ _ => none
    reassignResp := fun _ _ _ => none
    rand := fun _ => 0 }

/-- A fully successful endpoint whose first random draw lands on the first
pool member and whose second draw lands on the second. -/
def envC10 : Env :=
  { pool := [nodeA, nodeB]
    maxDepth := 0
    createResp := fun _ _ => none
    deployResp := fun _ _ _ _ => none
    reassignResp := fun _ _ _ => none
    rand := fun i => if i == 0 then 0 else 2 ^ 52 }

/-- Endpoint whose very first RPC (a bare `deploy`) fails with the
graft-base message; `autoGraftResolverDepth` is left at its default `0`. -/
def envC6 : Env :=
  { pool := [nodeA, nodeB]
    maxDepth := 0
    createResp := fun _ _ => none
    deployResp := fun t _ _ _ => if t == 0 then some msgC1 else none
    reassignResp := fun _ _ _ => none
    rand := fun _ => 0 }

/-- The store already holds a policy record for `hHash` whose decision basis
is `RULES` (a stricter policy than the default). -/
def stC3 : St :=
  { rules := [⟨hHash, .DEPLOYMENT, .RULES⟩]
    rpc := 0
    draws := 0
    alloc := 8
    trace := [] }

def countEnsureCalls (t : List Event) (name hash : String) (depth : Nat) : Nat :=
  (t.filter (fun e => e == Event.ensureCall name hash depth)).length

def containsCode : JsError → String → Bool
  | .remote _, _ => false
  | .fuelOut, _ => false
  | .indexer c e, code => c == code || containsCode e code

def isIE20Headed : JsError → Bool
  | .indexer c _ => c == ie20
  | _ => false

/-- A message that contains the graft signature but no `Qm` token at all. -/
def msgNoQm : String := graftSig ++ "]"

/-- A message whose `Qm` token is truncated: only the two prefix characters
remain. -/
def msgShortQm : String := graftSig ++ ", " ++ qmTok

/-- `st0` after one RPC has already been issued (the `subgraph_create` call
that precedes the deploy inside `ensure`). -/
def stW1 : St := { rules := [], rpc := 1, draws := 0, alloc := 8, trace := [] }

/-! ### Helper lemmas about the graft resolver -/

theorem graftBase_pos (maxDepth : Nat) (msg : String) (depth alloc : Nat)
    (hs : containsSub msg graftSig = true) (hd : depth < maxDepth) :
    graftBase maxDepth msg depth alloc
      = some ⟨jsSubstring msg (jsIndexOf msg qmTok) (jsIndexOf msg qmTok + 46),
              alloc⟩ := by
  simp [graftBase, hs, Nat.not_le.mpr hd]

theorem graftBase_ceiling (maxDepth : Nat) (msg : String) (depth alloc : Nat)
    (hd : maxDepth ≤ depth) :
    graftBase maxDepth msg depth alloc = none := by
  unfold graftBase
  split
  · simp [hd]
  · rfl

theorem jsSubstring_of_le (s : String) (i : Nat) (h : i + 46 ≤ s.toList.length) :
    jsSubstring s (i : Int) ((i : Int) + 46)
      = String.mk ((s.toList.drop i).take 46) := by
  have h1 : ((i : Int)).toNat = i := by omega
  have h2 : ((i : Int) + 46).toNat = i + 46 := by omega
  simp only [jsSubstring, clampIdx, h1, h2]
  have e1 : min i s.toList.length = i := by omega
  have e2 : min (i + 46) s.toList.length = i + 46 := by omega
  rw [e1, e2]
  have e3 : min i (i + 46) = i := by omega
  have e4 : max i (i + 46) = i + 46 := by omega
  rw [e3, e4]
  have e5 : i + 46 - i = 46 := by omega
  rw [e5]

/-! ### Claim theorems -/

/-- C6: whenever a deploy error message contains the graft-base signature and
the current depth has reached the configured `autoGraftResolverDepth`
ceiling, `graftBase` returns `none`, and `deploy` aborts with the doubly
IE026-wrapped remote error, emitting only the `subgraph_deploy` call — no
recursive `ensure` happens.  With the default `autoGraftResolverDepth = 0`
this applies already at depth `0` (see the witness). -/
theorem graft_resolution_disabled_at_depth_ceiling
    (fuel : Nat) (env : Env) (st : St) (name : String)
    (dep : SubgraphDeploymentID) (node : Option String) (depth : Nat)
    (msg : String)
    (hd : env.maxDepth ≤ depth)
    (_hs : containsSub msg graftSig = true)
    (hr : env.deployResp st.rpc name dep.ipfsHash
            (pickTargetNode env st node).fst = some msg) :
    graftBase env.maxDepth msg depth st.alloc = none ∧
    deployF (fuel + 1) env st name dep node depth
      = (.error (.indexer ie26 (.indexer ie26 (.remote msg))),
         stAfterDeploy env st name dep.ipfsHash node depth) ∧
    (stAfterDeploy env st name dep.ipfsHash node depth).trace
      = (pickTargetNode env st node).snd.trace
          ++ [.deployCall name dep.ipfsHash (pickTargetNode env st node).fst depth] := by
  have hg : graftBase env.maxDepth msg depth st.alloc = none :=
    graftBase_ceiling env.maxDepth msg depth st.alloc hd
  refine ⟨hg, ?_, ?_⟩
  · show runF (fuel + 1) .deploy env st name dep node depth = _
    simp only [runF, hr, hg]
  · simp [stAfterDeploy, emit]

/-- C6 witness: the default configuration (`autoGraftResolverDepth = 0`) with
a graft-base failure on the very first deploy at depth `0`: the resolver is
disabled and the deploy aborts without recursion. -/
theorem graft_resolution_disabled_witness :
    graftBase envC6.maxDepth msgC1 0 st0.alloc = none ∧
    deployF 3 envC6 st0 nsS hDep (some nodeA) 0
      = (.error (.indexer ie26 (.indexer ie26 (.remote msgC1))),
         stAfterDeploy envC6 st0 nsS hDep.ipfsHash (some nodeA) 0) ∧
    (stAfterDeploy envC6 st0 nsS hDep.ipfsHash (some nodeA) 0).trace
      = (pickTargetNode envC6 st0 (some nodeA)).snd.trace
          ++ [.deployCall nsS hDep.ipfsHash
                (pickTargetNode envC6 st0 (some nodeA)).fst 0] :=
  graft_resolution_disabled_at_depth_ceiling 2 envC6 st0 nsS hDep (some nodeA) 0
    msgC1 (by decide) (by decide) (by decide)

/-- C7: when the error message contains the graft-base signature and the
46-character token starting at the first `Qm` occurrence (at index `i`) fits
inside the message, the resolver extracts exactly those 46 characters as the
dependency identity (given that resolution is enabled, i.e.
`depth < autoGraftResolverDepth`). -/
theorem graft_extraction_yields_qm_token
    (maxDepth : Nat) (msg : String) (depth alloc i : Nat)
    (hs : containsSub msg graftSig = true)
    (hi : firstIndexOf msg qmTok = some i)
    (hlen : i + 46 ≤ msg.toList.length)
    (hd : depth < maxDepth) :
    graftBase maxDepth msg depth alloc
      = some ⟨String.mk ((msg.toList.drop i).take 46), alloc⟩ ∧
    (String.mk ((msg.toList.drop i).take 46)).toList.length = 46 := by
  constructor
  · rw [graftBase_pos maxDepth msg depth alloc hs hd]
    have hjs : jsIndexOf msg qmTok = (i : Int) := by rw [jsIndexOf, hi]
    rw [hjs, jsSubstring_of_le msg i hlen]
  · show ((msg.toList.drop i).take 46).length = 46
    rw [List.length_take, List.length_drop]
    omega

/-- C7 witness: for the concrete message `msgC1`, whose first `Qm` occurrence
is at index 77, extraction yields the 46-character hash `bHash`. -/
theorem graft_extraction_witness :
    graftBase 1 msgC1 0 8
      = some ⟨String.mk ((msgC1.toList.drop 77).take 46), 8⟩ ∧
    (String.mk ((msgC1.toList.drop 77).take 46)).toList.length = 46 :=
  graft_extraction_yields_qm_token 1 msgC1 0 8 77
    (by decide) (by decide) (by decide) (by decide)

/-- C8 (amended): the resolver performs no validation of the extracted token.
Whenever the message contains the graft signature and the depth ceiling has
not been reached, `graftBase` returns `some` identity — built from whatever
(possibly empty, truncated, or garbage) substring
`substring(indexOf(Qm), indexOf(Qm) + 46)` produced — and never reports
"no resolution possible" because of a malformed token. -/
theorem graft_resolver_returns_token_without_validation
    (maxDepth : Nat) (msg : String) (depth alloc : Nat)
    (hs : containsSub msg graftSig = true)
    (hd : depth < maxDepth) :
    (graftBase maxDepth msg depth alloc).isSome = true := by
  rw [graftBase_pos maxDepth msg depth alloc hs hd]
  rfl

/-- C8 witness: a message whose `Qm` token is truncated to just the prefix
still produces a resolution. -/
theorem graft_resolver_truncated_token_witness :
    (graftBase 1 msgShortQm 0 3).isSome = true :=
  graft_resolver_returns_token_without_validation 1 msgShortQm 0 3
    (by decide) (by decide)

/-- C8 counterexample: a message containing the graft signature but no `Qm`
occurrence at all.  The claim says the resolver treats this as an extraction
failure and returns absent; in fact `indexOf` returns `-1`, `substring(-1, 45)`
clamps to the first 45 characters of the message, and the resolver returns a
`some` identity built from that garbage (here the start of the signature
itself). -/
theorem graft_resolver_some_on_malformed_token :
    containsSub msgNoQm graftSig = true ∧
    containsSub msgNoQm qmTok = false ∧
    jsIndexOf msgNoQm qmTok = -1 ∧
    (graftBase 1 msgNoQm 0 3).isSome = true := by
  decide

/-- C1 (amended): for every depth `d` below `autoGraftResolverDepth`, a
deploy failure whose message carries the graft-base signature makes `deploy`
equal to the two-phase sequence `graftRetryPhase`: exactly one recursive
`ensure` for the extracted dependency `B` at depth `d + 1`, and — only after
that call returns successfully — a retry of the original deployment at the
same depth `d`.  The retry is a full `ensure` call (create, deploy,
reassign), not a bare `deploySubgraph` as the claim states. -/
theorem graft_failure_single_recursive_ensure_then_retry
    (fuel : Nat) (env : Env) (st : St) (name : String)
    (dep : SubgraphDeploymentID) (node : Option String) (depth : Nat)
    (msg : String)
    (hd : depth < env.maxDepth)
    (hs : containsSub msg graftSig = true)
    (hr : env.deployResp st.rpc name dep.ipfsHash
            (pickTargetNode env st node).fst = some msg) :
    ∃ B, graftBase env.maxDepth msg depth st.alloc = some B ∧
      deployF (fuel + 1) env st name dep node depth
        = graftRetryPhase fuel env
            (stAfterGraft env st name dep.ipfsHash node depth)
            name B dep (pickTargetNode env st node).fst depth msg := by
  have hg := graftBase_pos env.maxDepth msg depth st.alloc hs hd
  refine ⟨_, hg, ?_⟩
  show runF (fuel + 1) .deploy env st name dep node depth = _
  simp only [runF, hr, hg, graftRetryPhase, graftRetryPhaseGen, ensureF,
    stAfterGraft]

/-- C1 witness: concrete instantiation of the two-phase equation at the
state reached after the initial `subgraph_create` RPC. -/
theorem graft_failure_single_recursive_ensure_witness :
    ∃ B, graftBase envC1.maxDepth msgC1 0 stW1.alloc = some B ∧
      deployF 9 envC1 stW1 nsS hDep (some nodeA) 0
        = graftRetryPhase 8 envC1
            (stAfterGraft envC1 stW1 nsS hDep.ipfsHash (some nodeA) 0)
            nsS B hDep (pickTargetNode envC1 stW1 (some nodeA)).fst 0 msgC1 :=
  graft_failure_single_recursive_ensure_then_retry 8 envC1 stW1 nsS hDep
    (some nodeA) 0 msgC1 (by decide) (by decide) (by decide)

/-- C1 counterexample: the claim's parenthetical — that the retry of the
original deployment is a bare `deploySubgraph` call, not a full `ensure` —
is false.  In this run the graft base `bHash` is resolved, and the original
deployment `hHash` is then retried through a second full `ensure` at depth
`0` (events 9-13: `ensureCall`, `createCall`, `deployCall`, `upsertRule`,
`reassignCall`), so `ensure` is entered twice for `hHash` at depth `0`
instead of the once the claim predicts. -/
theorem graft_retry_not_bare_deploy :
    (ensureF 10 envC1 st0 nsS hDep (some nodeA) 0).snd.trace
      = [.ensureCall nsS hHash 0,
         .createCall nsS,
         .deployCall nsS hHash (some nodeA) 0,
         .ensureCall nsS bHash 1,
         .createCall nsS,
         .deployCall nsS bHash (some nodeA) 1,
         .upsertRule bHash .DEPLOYMENT .OFFCHAIN,
         .reassignCall (some nodeA) bHash,
         .ensureCall nsS hHash 0,
         .createCall nsS,
         .deployCall nsS hHash (some nodeA) 0,
         .upsertRule hHash .DEPLOYMENT .OFFCHAIN,
         .reassignCall (some nodeA) hHash] ∧
    countEnsureCalls
      (ensureF 10 envC1 st0 nsS hDep (some nodeA) 0).snd.trace nsS hHash 0
      = 2 := by
  decide

/-- C2 (amended): the `GraftRetryRequired` error (IE069) is raised only when
both the recursive `ensure` of the dependency and the retry `ensure` of the
original deployment succeed, and even then it leaves `deploy` wrapped inside
an IE026 `indexerError` by the surrounding catch block.  (The counterexample
shows that when the retry fails, no IE069 is raised at all.) -/
theorem graft_retry_required_after_double_success
    (fuel : Nat) (env : Env) (st : St) (name : String)
    (dep : SubgraphDeploymentID) (node : Option String) (depth : Nat)
    (msg : String) (B : SubgraphDeploymentID) (stB stC : St)
    (hr : env.deployResp st.rpc name dep.ipfsHash
            (pickTargetNode env st node).fst = some msg)
    (hB : graftBase env.maxDepth msg depth st.alloc = some B)
    (h1 : ensureF fuel env (stAfterGraft env st name dep.ipfsHash node depth)
            name B (pickTargetNode env st node).fst (depth + 1)
            = (.ok (), stB))
    (h2 : ensureF fuel env stB name dep (pickTargetNode env st node).fst depth
            = (.ok (), stC)) :
    deployF (fuel + 1) env st name dep node depth
      = (.error (.indexer ie26 (.indexer ie69 (.remote msg))), stC) := by
  show runF (fuel + 1) .deploy env st name dep node depth = _
  simp only [ensureF, stAfterGraft] at h1 h2
  simp only [runF, hr, hB, graftRetryPhaseGen, stAfterGraft, h1, h2]

/-- C2 witness: concrete instantiation in which both recursive `ensure`
calls succeed, so `deploy` raises the IE026-wrapped IE069. -/
theorem graft_retry_required_witness :
    deployF 9 envC1 stW1 nsS hDep (some nodeA) 0
      = (.error (.indexer ie26 (.indexer ie69 (.remote msgC1))),
         (ensureF 8 envC1
           (ensureF 8 envC1
             (stAfterGraft envC1 stW1 nsS hDep.ipfsHash (some nodeA) 0)
             nsS bDep (some nodeA) 1).snd
           nsS hDep (some nodeA) 0).snd) := by
  have h1f : (ensureF 8 envC1
      (stAfterGraft envC1 stW1 nsS hDep.ipfsHash (some nodeA) 0)
      nsS bDep (some nodeA) 1).fst = .ok () := by decide
  have h2f : (ensureF 8 envC1
      (ensureF 8 envC1
        (stAfterGraft envC1 stW1 nsS hDep.ipfsHash (some nodeA) 0)
        nsS bDep (some nodeA) 1).snd
      nsS hDep (some nodeA) 0).fst = .ok () := by decide
  exact graft_retry_required_after_double_success 8 envC1 stW1 nsS hDep
    (some nodeA) 0 msgC1 bDep _ _ (by decide) (by decide)
    (Prod.ext h1f rfl) (Prod.ext h2f rfl)

/-- C2 counterexample: the dependency `bHash` is resolved successfully (its
`ensure` completes, see the `reassignCall` for it in the trace), but the
retry of the original deployment fails with a non-graft error; the error
`ensure` surfaces contains no IE069 anywhere in its cause chain — the
"graft dependency resolved, retry required" signal is not raised, contrary
to the claim that it is raised regardless of the retry's outcome. -/
theorem graft_retry_error_absent_when_retry_fails :
    (ensureF 10 envC2x st0 nsS hDep (some nodeA) 0).fst
      = .error (.indexer ie26 (.indexer ie26 (.indexer ie26 (.remote boomMsg)))) ∧
    containsCode
      (.indexer ie26 (.indexer ie26 (.indexer ie26 (.remote boomMsg)))) ie69
      = false ∧
    Event.reassignCall (some nodeA) bHash
      ∈ (ensureF 10 envC2x st0 nsS hDep (some nodeA) 0).snd.trace := by
  decide

/-- C3 (code bug): the store already holds a policy record for the
deployment's identifier (`hHash`, decision basis `RULES`).  The claim says a
subsequent successful deploy inserts zero additional records and never
overwrites the existing one.  In fact
`indexingRules.includes(deployment)` compares the freshly constructed
`SubgraphDeploymentID` objects with the `deployment` argument by reference,
which can never match, so the guard always fails and
`upsertIndexingRule` runs unconditionally, replacing the existing `RULES`
record with the default `OFFCHAIN` one. -/
theorem policy_record_overwritten_on_redeploy :
    stC3.rules = [⟨hHash, .DEPLOYMENT, .RULES⟩] ∧
    (deployF 2 envOk stC3 nsS hDep (some nodeA) 0).fst = .ok () ∧
    (deployF 2 envOk stC3 nsS hDep (some nodeA) 0).snd.rules
      = [⟨hHash, .DEPLOYMENT, .OFFCHAIN⟩] ∧
    Event.upsertRule hHash .DEPLOYMENT .OFFCHAIN
      ∈ (deployF 2 envOk stC3 nsS hDep (some nodeA) 0).snd.trace := by
  decide

/-- C4 (code bug): the endpoint answers `subgraph_create` with an error
whose message contains "already exists".  The claim (and the spec) say this
is treated as success-equivalent and the workflow continues to the deploy
step.  In fact the catch block only logs in that case and rethrows
unconditionally, so `ensure` aborts with the remote error and no
`subgraph_deploy` call is ever made. -/
theorem create_already_exists_still_raises :
    containsSub alreadyMsg alreadyExistsTok = true ∧
    (ensureF 3 envC4 st0 nsS hDep (some nodeA) 0).fst
      = .error (.remote alreadyMsg) ∧
    (ensureF 3 envC4 st0 nsS hDep (some nodeA) 0).snd.trace
      = [.ensureCall nsS hHash 0, .createCall nsS] := by
  decide

/-- Errors surfaced by `createSubgraph` are raw remote errors. -/
theorem createF_err_shape (env : Env) (st : St) (name : String) (e : JsError)
    (h : (createSubgraphF env st name).fst = .error e) :
    isIE20Headed e = false := by
  simp only [createSubgraphF] at h
  split at h
  · cases h
    rfl
  · cases h

/-- Errors surfaced by `reassign` are raw remote errors ("unchanged") or
IE028-wrapped; never IE020-headed. -/
theorem reassignF_err_shape (env : Env) (st : St)
    (dep : SubgraphDeploymentID) (node : Option String) (e : JsError)
    (h : (reassignF env st dep node).fst = .error e) :
    isIE20Headed e = false := by
  simp only [reassignF] at h
  split at h
  · split at h
    · cases h
      rfl
    · cases h
      rfl
  · cases h

/-- Classification of the errors `runF` can surface: the `deploy` side wraps
every failure in IE026 inside its catch block or runs out of fuel, and the
`ensure` side rethrows the failing step's error unchanged — the IE020
wrapper built on source line 268 is used only for logging.  Hence no error
surfacing from either entry point is IE020-headed. -/
theorem runF_no_ie20 (fuel : Nat) : ∀ (tag : CallTag) (env : Env) (st : St)
    (name : String) (dep : SubgraphDeploymentID) (node : Option String)
    (depth : Nat) (e : JsError),
    (runF fuel tag env st name dep node depth).fst = .error e →
    isIE20Headed e = false := by
  induction fuel with
  | zero =>
      intro tag env st name dep node depth e h
      simp only [runF] at h
      cases h
      rfl
  | succ fuel ih =>
      intro tag env st name dep node depth e h
      cases tag with
      | deploy =>
          simp only [runF, graftRetryPhaseGen] at h
          split at h
          · split at h
            · split at h
              · cases h
                rfl
              · split at h
                · cases h
                  rfl
                · cases h
                  rfl
            · cases h
              rfl
          · split at h <;> cases h
      | ensure =>
          simp only [runF] at h
          split at h
          · rename_i e1 heq1
            cases h
            exact createF_err_shape env _ name _ heq1
          · split at h
            · rename_i e1 heq1
              cases h
              exact ih .deploy env _ name dep node depth _ heq1
            · split at h
              · rename_i e1 heq1
                cases h
                exact reassignF_err_shape env _ dep node _ heq1
              · cases h

/-- C5 (amended): whatever fails inside `ensure` — create, deploy or
reassign — the error `ensure` re-raises to its caller is never wrapped in
the IE020 "failed to ensure" category: source line 268 builds
`indexerError(IE020, error)` only for the log, and line 275 rethrows the
original `error`. -/
theorem ensure_never_raises_ie020_wrapper (fuel : Nat) (env : Env) (st : St)
    (name : String) (dep : SubgraphDeploymentID) (node : Option String)
    (depth : Nat) (e : JsError)
    (h : (ensureF fuel env st name dep node depth).fst = .error e) :
    isIE20Headed e = false :=
  runF_no_ie20 fuel .ensure env st name dep node depth e h

/-- C5 witness: the error surfaced when `subgraph_create` fails outright is
the raw remote error, not IE020-headed. -/
theorem ensure_never_ie020_witness : isIE20Headed (.remote boomMsg) = false :=
  ensure_never_raises_ie020_wrapper 1 envBoom st0 nsS hDep (some nodeA) 0
    (.remote boomMsg) (by decide)

/-- C5 counterexample: `subgraph_create` fails with a generic remote error;
`ensure` re-raises exactly that remote error, unwrapped — not the
EnsureFailed (IE020) category carrying the cause, as the claim states. -/
theorem ensure_reraises_unwrapped_original :
    (ensureF 2 envBoom st0 nsS hDep (some nodeA) 0).fst
      = .error (.remote boomMsg) ∧
    isIE20Headed (JsError.remote boomMsg) = false := by
  decide

/-- C9 (amended): an explicitly requested node is returned verbatim (pool
membership only affects a warning); with no explicit node and a non-empty
pool the selected node is always a member of the pool (so for the pool
`[nodeA, nodeB]` nothing else is ever selected); with no explicit node and
an empty pool the selection yields `none` (JavaScript `undefined`) — it
does not fail with a configuration error (see the counterexample). -/
theorem node_selection_behaviour :
    (∀ (env : Env) (st : St) (n : String),
      (pickTargetNode env st (some n)).fst = some n) ∧
    (∀ (env : Env) (st : St), env.pool ≠ [] → env.rand st.draws < 2 ^ 53 →
      ∃ x, (pickTargetNode env st none).fst = some x ∧ x ∈ env.pool) ∧
    (∀ (env : Env) (st : St), env.pool = [] →
      (pickTargetNode env st none).fst = none) := by
  refine ⟨fun env st n => rfl, ?_, ?_⟩
  · intro env st hne hlt
    have hpos : 0 < env.pool.length := List.length_pos.mpr hne
    have hidx : env.rand st.draws * env.pool.length / 2 ^ 53
        < env.pool.length := by
      rw [Nat.div_lt_iff_lt_mul (by positivity)]
      calc env.rand st.draws * env.pool.length
          < 2 ^ 53 * env.pool.length := by
            exact Nat.mul_lt_mul_of_lt_of_le hlt (le_refl _) hpos
        _ = env.pool.length * 2 ^ 53 := Nat.mul_comm _ _
    refine ⟨env.pool.get ⟨_, hidx⟩, ?_, List.get_mem _ _ hidx⟩
    simp [pickTargetNode, List.get?_eq_get hidx]
  · intro env st hp
    simp [pickTargetNode, hp]

/-- C9 witness: with the pool `[nodeA, nodeB]` and no explicit node, the
selection is a member of the pool. -/
theorem node_selection_member_witness :
    ∃ x, (pickTargetNode envC10 st0 none).fst = some x ∧ x ∈ envC10.pool :=
  node_selection_behaviour.2.1 envC10 st0 (by decide) (by decide)

/-- C9 counterexample: with an empty pool and no explicit node, the claim
says selection fails with a fatal configuration error.  In fact
`indexNodeIDs[Math.floor(Math.random() * 0)]` is `undefined`, no error is
raised, the flow proceeds to the `subgraph_deploy` RPC with an undefined
node, and the whole deploy step can even succeed. -/
theorem empty_pool_no_configuration_error :
    envC9.pool = [] ∧
    (pickTargetNode envC9 st0 none).fst = none ∧
    (deployF 2 envC9 st0 nsS hDep none 0).fst = .ok () ∧
    Event.deployCall nsS hHash none 0
      ∈ (deployF 2 envC9 st0 nsS hDep none 0).snd.trace := by
  decide

/-- C10: inside one `ensure` call, an explicit `indexNode` is passed through
unchanged to both the deploy step and the reassign step, and both use
exactly that node (first conjunct: the trace of a successful run shows the
explicit node in both the `deployCall` and the `reassignCall`).  With no
explicit node, deploy and reassign each draw their own random node
independently, so some random outcomes reassign the deployment to a
different node than the one it was deployed to (second conjunct: the first
draw picks `nodeA` for deploy, the second picks `nodeB` for reassign). -/
theorem node_verbatim_or_independent_draws :
    (∀ (env : Env) (st : St) (fuel : Nat) (name : String)
        (dep : SubgraphDeploymentID) (depth : Nat) (n : String),
      env.createResp st.rpc name = none →
      env.deployResp (st.rpc + 1) name dep.ipfsHash (some n) = none →
      env.reassignResp (st.rpc + 2) (some n) dep.ipfsHash = none →
      ∃ sync,
        (ensureF (fuel + 2) env st name dep (some n) depth).snd.trace
          = st.trace
              ++ [.ensureCall name dep.ipfsHash depth, .createCall name,
                  .deployCall name dep.ipfsHash (some n) depth]
              ++ sync
              ++ [.reassignCall (some n) dep.ipfsHash]) ∧
    ((ensureF 3 envC10 st0 nsS hDep none 0).snd.trace
       = [.ensureCall nsS hHash 0, .createCall nsS,
          .deployCall nsS hHash (some nodeA) 0,
          .upsertRule hHash .DEPLOYMENT .OFFCHAIN,
          .reassignCall (some nodeB) hHash]) := by
  constructor
  · intro env st fuel name dep depth n h1 h2 h3
    refine ⟨if jsIncludes (freshIds st.rules st.alloc) dep then []
            else [.upsertRule dep.ipfsHash .DEPLOYMENT .OFFCHAIN], ?_⟩
    by_cases hin : jsIncludes (freshIds st.rules st.alloc) dep
    · simp [ensureF, runF, createSubgraphF, reassignF, stAfterDeploy,
        pickTargetNode, emit, fetchIndexingRules, h1, h2, h3, hin]
    · simp [ensureF, runF, createSubgraphF, reassignF, stAfterDeploy,
        pickTargetNode, emit, fetchIndexingRules, h1, h2, h3, hin]
  · decide

/-- C10 witness: instantiation of the explicit-node conjunct on a fully
successful endpoint. -/
theorem node_verbatim_witness :
    ∃ sync,
      (ensureF 3 envOk st0 nsS hDep (some nodeA) 0).snd.trace
        = st0.trace
            ++ [.ensureCall nsS hHash 0, .createCall nsS,
                .deployCall nsS hHash (some nodeA) 0]
            ++ sync
            ++ [.reassignCall (some nodeA) hHash] :=
  node_verbatim_or_independent_draws.1 envOk st0 1 nsS hDep 0 nodeA
    (by decide) (by decide) (by decide)

end Indexer
